import Mathlib

/-!
# `html_to_markdown.go`: the stdin-to-stdout HTML to Markdown filter

A shallow embedding of `src/skills/markdown_crawl/scripts/html_to_markdown.go`.

The program is one function, `main`, that talks to four things outside itself:
`io.ReadAll(os.Stdin)`, `htmltomarkdown.ConvertString`, the two `fmt` writers and
`os.Exit`.  `main` is embedded as a tree of such calls (`Prog`): every node is one
call, and the continuation of a node receives what the call returned.  A `World`
fixes what each call does; `run` executes the tree against a world and records
the calls made (`Event`) and how the process ended (`Status`).

A write need not return.  Standard output and standard error are `os.Stdout` and
`os.Stderr`; when a write on one of them fails with `EPIPE` (the reader of the pipe is
gone), the Go runtime raises `SIGPIPE` and the process dies inside the write, unless
the signal is ignored, in which case the write returns the error.  Both outcomes are
results a world may give to a write (`WriteResult`).

Go strings and byte slices are sequences of bytes (a Go string need not be valid
UTF-8), so both are `List UInt8`.  The Go `error` interface is `Option GoError`,
with `none` for `nil`.
-/

namespace HtmlToMarkdown

/-! ## Data -/

/-- A Go `[]byte`. -/
abbrev Bytes := List UInt8

/-- A Go `string`: an immutable sequence of bytes. -/
abbrev GoString := List UInt8

/-- The bytes of a string literal of the source (Go source text is UTF-8). -/
def lit (s : String) : GoString := s.data.flatMap String.utf8EncodeChar

/-- The Go conversion `string(b)` of a byte slice: the same bytes, as a string. -/
def string (b : Bytes) : GoString := b

/-- A non-nil Go `error` value, known to `main` only through its `Error()` text. -/
structure GoError where
  /-- The result of the `Error()` method. -/
  Error : GoString
deriving DecidableEq, Repr

/-- The two streams `main` writes to. -/
inductive Fd where
  | Stdout
  | Stderr
deriving DecidableEq, Repr

/-- The result of one `Write` on `os.Stdout` or `os.Stderr`. -/
inductive WriteResult where
  /-- The write returns `(n, err)` to its caller: `n` bytes were taken, and `err` is
  the error that stopped it, if any. -/
  | returns (n : Nat) (err : Option GoError)
  /-- The stream is a broken pipe: after `n` bytes the write fails with `EPIPE`, the
  runtime raises `SIGPIPE` and the process dies; the write does not return. -/
  | sigpipe (n : Nat)
deriving DecidableEq, Repr

/-- The number of bytes a write took. -/
def WriteResult.count : WriteResult → Nat
  | WriteResult.returns n _ => n
  | WriteResult.sigpipe n => n

/-- The number of the signal `SIGPIPE`. -/
def SIGPIPE : Nat := 13

/-- How a process ended, as its parent sees it. -/
inductive Status where
  /-- The process exited with the given exit status. -/
  | exited (code : Nat)
  /-- The process was ended by the given signal; it has no exit status. -/
  | signaled (sig : Nat)
deriving DecidableEq, Repr

/-! ## Programs -/

/-- A program as a tree of calls.  The continuation of a call receives the values
the call returns; `Exit` and `Return` end the process. -/
inductive Prog where
  /-- The call `io.ReadAll(os.Stdin)`, returning `(data, err)`. -/
  | ReadAll (k : Bytes → Option GoError → Prog)
  /-- The call `htmltomarkdown.ConvertString(input)`, returning `(markdown, err)`. -/
  | ConvertString (input : GoString) (k : GoString → Option GoError → Prog)
  /-- One `Write(p)` on a stream; the continuation runs when the write returns
  `(n, err)`. -/
  | Write (fd : Fd) (p : GoString) (k : Nat → Option GoError → Prog)
  /-- The call `os.Exit(code)`: the process ends at once. -/
  | Exit (code : Nat)
  /-- The function `main` returns: the process ends with status 0. -/
  | Return

/-- The text `fmt` prints for one `error` operand under the verb `%v`: the result of
its `Error()` method. -/
def verbV (err : GoError) : GoString := err.Error

/-- Expansion of a format that holds the verb `%v` once and no other percent sign, as
both formats of `main` do, with one operand: the `%v` (bytes 37, 118) is replaced by
the operand's text, every other byte is copied. -/
def format : GoString → GoString → GoString
  | [], _ => []
  | 37 :: 118 :: rest, arg => arg ++ rest
  | c :: rest, arg => c :: format rest arg

/-- The call `fmt.Fprintf(w, fmtStr, err)` with one `error` operand: the text is
formatted into a buffer and handed to the stream in a single `Write`. -/
def Fprintf (w : Fd) (fmtStr : String) (err : GoError)
    (k : Nat → Option GoError → Prog) : Prog :=
  Prog.Write w (format (lit fmtStr) (verbV err)) k

/-- The call `fmt.Print(s)` with one string operand: the bytes of `s`, nothing added,
in a single `Write` on standard output. -/
def Print (s : GoString) (k : Nat → Option GoError → Prog) : Prog :=
  Prog.Write Fd.Stdout s k

/-- The function `main` of `html_to_markdown.go`.  The results of the three `fmt`
calls are dropped, as in the source. -/
def main : Prog :=
  -- Read HTML from stdin
  Prog.ReadAll fun html err =>
    match err with
    | some e =>
      Fprintf Fd.Stderr "Error reading stdin: %v\n" e fun _ _ =>
      Prog.Exit 1
    | none =>
      -- Convert HTML to Markdown
      Prog.ConvertString (string html) fun markdown err =>
        match err with
        | some e =>
          Fprintf Fd.Stderr "Error converting HTML to Markdown: %v\n" e fun _ _ =>
          Prog.Exit 1
        | none =>
          -- Output markdown to stdout
          Print markdown fun _ _ =>
          Prog.Return

/-! ## Execution -/

/-- What the calls of a program do in one run. -/
structure World where
  /-- What `io.ReadAll(os.Stdin)` returns: the bytes read so far and the error, if any. -/
  ReadAll : Bytes × Option GoError
  /-- What `htmltomarkdown.ConvertString` returns on each input. -/
  ConvertString : GoString → GoString × Option GoError
  /-- What a `Write` of the given bytes on the given stream does. -/
  Write : Fd → GoString → WriteResult

/-- One call made during a run, with its result. -/
inductive Event where
  | read (data : Bytes) (err : Option GoError)
  | convert (input : GoString) (markdown : GoString) (err : Option GoError)
  | write (fd : Fd) (p : GoString) (r : WriteResult)
deriving DecidableEq, Repr

/-- The result of a run: the calls made, in order, and how the process ended. -/
structure Outcome where
  trace : List Event
  status : Status
deriving DecidableEq, Repr

/-- Execute a program in a world.  A write that returns hands `(n, err)` to the
continuation; a write on a broken pipe ends the run there, by `SIGPIPE`. -/
def run (w : World) : Prog → Outcome
  | Prog.ReadAll k =>
    let o := run w (k w.ReadAll.1 w.ReadAll.2)
    ⟨Event.read w.ReadAll.1 w.ReadAll.2 :: o.trace, o.status⟩
  | Prog.ConvertString input k =>
    let r := w.ConvertString input
    let o := run w (k r.1 r.2)
    ⟨Event.convert input r.1 r.2 :: o.trace, o.status⟩
  | Prog.Write fd p k =>
    match w.Write fd p with
    | WriteResult.returns n err =>
      let o := run w (k n err)
      ⟨Event.write fd p (WriteResult.returns n err) :: o.trace, o.status⟩
    | WriteResult.sigpipe n =>
      ⟨[Event.write fd p (WriteResult.sigpipe n)], Status.signaled SIGPIPE⟩
  | Prog.Exit code => ⟨[], Status.exited code⟩
  | Prog.Return => ⟨[], Status.exited 0⟩

/-! ## Observations of a run -/

/-- The payloads handed to a stream, one entry per `Write`, in order. -/
def writes (fd : Fd) : List Event → List GoString
  | [] => []
  | Event.write fd' p _ :: tr => if fd' = fd then p :: writes fd tr else writes fd tr
  | _ :: tr => writes fd tr

/-- Everything the program wrote to a stream: the payloads of its writes, joined. -/
def written (fd : Fd) (tr : List Event) : GoString := (writes fd tr).flatten

/-- The bytes a stream took: of each write, the first `n` bytes, `n` being the count
of the write's result. -/
def delivered (fd : Fd) : List Event → GoString
  | [] => []
  | Event.write fd' p r :: tr =>
    if fd' = fd then p.take r.count ++ delivered fd tr else delivered fd tr
  | _ :: tr => delivered fd tr

/-- Whether some write of the run hit a broken pipe and ended the process. -/
def sigpiped : List Event → Bool
  | [] => false
  | Event.write _ _ (WriteResult.sigpipe _) :: _ => true
  | _ :: tr => sigpiped tr

/-- How a process ends whose last call is a write with result `r`, followed, if the
write returns, by an exit with status `code`. -/
def afterWrite (r : WriteResult) (code : Nat) : Status :=
  match r with
  | WriteResult.returns _ _ => Status.exited code
  | WriteResult.sigpipe _ => Status.signaled SIGPIPE

/-- Whether a text is one line: its only line feed (byte 10) is its last byte. -/
def oneLine (msg : GoString) : Bool := msg.count 10 == 1 && msg.getLast? == some 10

/-- The arguments of the calls of `ConvertString`, one entry per call, in order. -/
def conversions : List Event → List GoString
  | [] => []
  | Event.convert input _ _ :: tr => input :: conversions tr
  | _ :: tr => conversions tr

/-- The number of calls of `io.ReadAll`. -/
def reads : List Event → Nat
  | [] => 0
  | Event.read _ _ :: tr => reads tr + 1
  | _ :: tr => reads tr

/-- The error that ends a run of `main`, if any: the error of the read, or else the
error `ConvertString` returns on the input read. -/
def cause (w : World) : Option GoError :=
  match w.ReadAll.2 with
  | some e => some e
  | none => (w.ConvertString (string w.ReadAll.1)).2

/-- Reading standard input failed. -/
def readFails (w : World) : Prop := w.ReadAll.2 ≠ none

/-- The read succeeded and the converter, called on the input read, reported failure. -/
def convertFails (w : World) : Prop :=
  w.ReadAll.2 = none ∧ (w.ConvertString (string w.ReadAll.1)).2 ≠ none

instance (w : World) : Decidable (readFails w) := by unfold readFails; infer_instance

instance (w : World) : Decidable (convertFails w) := by unfold convertFails; infer_instance


/-! ## Worlds used as concrete inputs -/

/-- A stream that takes every byte. -/
def goodWrite : Fd → GoString → WriteResult := fun _ p => WriteResult.returns p.length none

/-- A converter that turns everything into `# Title` followed by a line feed. -/
def constConvert : GoString → GoString × Option GoError := fun _ => (lit "# Title\n", none)

/-- A converter that returns a partial result together with an error. -/
def failConvert : GoString → GoString × Option GoError :=
  fun _ => (lit "# Ti", some ⟨lit "node limit exceeded"⟩)

/-- All goes well: the input is read, converted and written. -/
def okWorld : World := ⟨(lit "<h1>Title</h1>", none), constConvert, goodWrite⟩

/-- The read breaks after seven bytes. -/
def readErrWorld : World :=
  ⟨(lit "<h1>Tit", some ⟨lit "read /dev/stdin: input/output error"⟩), constConvert, goodWrite⟩

/-- The read succeeds and the converter reports failure. -/
def convErrWorld : World := ⟨(lit "<h1>Title</h1>", none), failConvert, goodWrite⟩

/-- The read and the conversion succeed; standard output takes three bytes and then
returns an error. -/
def shortWriteWorld : World :=
  ⟨(lit "<h1>Title</h1>", none), constConvert,
    fun fd p =>
      if fd = Fd.Stdout then
        WriteResult.returns 3 (some ⟨lit "write /dev/stdout: no space left on device"⟩)
      else WriteResult.returns p.length none⟩

/-- The read and the conversion succeed; standard output is a pipe whose reader is
gone. -/
def brokenStdoutWorld : World :=
  ⟨(lit "<h1>Title</h1>", none), constConvert,
    fun fd p => if fd = Fd.Stdout then WriteResult.sigpipe 0 else WriteResult.returns p.length none⟩

/-- The converter reports failure; standard error is a pipe whose reader is gone. -/
def brokenStderrWorld : World :=
  ⟨(lit "<h1>Title</h1>", none), failConvert,
    fun fd p => if fd = Fd.Stderr then WriteResult.sigpipe 0 else WriteResult.returns p.length none⟩

/-- The converter reports a failure whose text is the two lines `a` and `b`. -/
def twoLineWorld : World :=
  ⟨(lit "<h1>Title</h1>", none), fun _ => ([], some ⟨lit "a\nb"⟩), goodWrite⟩

end HtmlToMarkdown

open HtmlToMarkdown

/-! ## The three paths of `main` -/

/-- The text of the read-error message. -/
theorem format_read_error (e : GoError) :
    format (lit "Error reading stdin: %v\n") (verbV e)
      = lit "Error reading stdin: " ++ e.Error ++ lit "\n" := rfl

/-- The text of the conversion-error message. -/
theorem format_convert_error (e : GoError) :
    format (lit "Error converting HTML to Markdown: %v\n") (verbV e)
      = lit "Error converting HTML to Markdown: " ++ e.Error ++ lit "\n" := rfl

/-- A write followed by the end of the process: one event, and the status the result
of the write decides. -/
theorem run_write_then_end (w : World) (fd : Fd) (p : GoString) (code : Nat) :
    run w (Prog.Write fd p fun _ _ => Prog.Exit code)
      = ⟨[Event.write fd p (w.Write fd p)], afterWrite (w.Write fd p) code⟩ ∧
    run w (Prog.Write fd p fun _ _ => Prog.Return)
      = ⟨[Event.write fd p (w.Write fd p)], afterWrite (w.Write fd p) 0⟩ := by
  cases h : w.Write fd p <;> simp [run, afterWrite, h]

/-- The run of `main` when the read fails: the read and one write to standard error;
exit status 1 when that write returns. -/
theorem run_main_read_error (w : World) (b : Bytes) (e : GoError)
    (hr : w.ReadAll = (b, some e)) :
    run w main =
      ⟨[Event.read b (some e),
        Event.write Fd.Stderr (lit "Error reading stdin: " ++ e.Error ++ lit "\n")
          (w.Write Fd.Stderr (lit "Error reading stdin: " ++ e.Error ++ lit "\n"))],
        afterWrite (w.Write Fd.Stderr (lit "Error reading stdin: " ++ e.Error ++ lit "\n")) 1⟩ := by
  simp only [main, run, hr, Fprintf, format_read_error, (run_write_then_end w _ _ 1).1]

/-- The run of `main` when the read succeeds and the converter fails: the read, the
conversion and one write to standard error; exit status 1 when that write returns. -/
theorem run_main_convert_error (w : World) (b : Bytes) (m : GoString) (e : GoError)
    (hr : w.ReadAll = (b, none)) (hc : w.ConvertString (string b) = (m, some e)) :
    run w main =
      ⟨[Event.read b none, Event.convert (string b) m (some e),
        Event.write Fd.Stderr (lit "Error converting HTML to Markdown: " ++ e.Error ++ lit "\n")
          (w.Write Fd.Stderr
            (lit "Error converting HTML to Markdown: " ++ e.Error ++ lit "\n"))],
        afterWrite (w.Write Fd.Stderr
          (lit "Error converting HTML to Markdown: " ++ e.Error ++ lit "\n")) 1⟩ := by
  simp only [main, run, hr, hc, Fprintf, format_convert_error, (run_write_then_end w _ _ 1).1]

/-- The run of `main` when the read and the conversion succeed: the read, the
conversion and one write to standard output; exit status 0 when that write returns. -/
theorem run_main_success (w : World) (b : Bytes) (m : GoString)
    (hr : w.ReadAll = (b, none)) (hc : w.ConvertString (string b) = (m, none)) :
    run w main =
      ⟨[Event.read b none, Event.convert (string b) m none,
        Event.write Fd.Stdout m (w.Write Fd.Stdout m)],
        afterWrite (w.Write Fd.Stdout m) 0⟩ := by
  simp only [main, run, hr, hc, Print, (run_write_then_end w _ _ 0).2]

/-- Every world takes one of the three paths. -/
theorem world_cases (w : World) :
    (∃ b e, w.ReadAll = (b, some e)) ∨
    (∃ b m e, w.ReadAll = (b, none) ∧ w.ConvertString (string b) = (m, some e)) ∨
    (∃ b m, w.ReadAll = (b, none) ∧ w.ConvertString (string b) = (m, none)) := by
  rcases hr : w.ReadAll with ⟨b, _ | e⟩
  · rcases hc : w.ConvertString (string b) with ⟨m, _ | e⟩
    · exact Or.inr (Or.inr ⟨b, m, rfl, hc⟩)
    · exact Or.inr (Or.inl ⟨b, m, e, rfl, hc⟩)
  · exact Or.inl ⟨b, e, rfl⟩

/-- A write that returns is followed by the exit. -/
theorem afterWrite_returns (r : WriteResult) (code n : Nat) (err : Option GoError)
    (h : r = WriteResult.returns n err) : afterWrite r code = Status.exited code := by
  subst h; rfl

/-! ## The success path -/

/-- C1: when the read succeeds with `b` and the converter succeeds on `string(b)` with
`m`, `main` writes exactly `m` to standard output, in one write of the bytes of `m`
with nothing before or after them, writes nothing to standard error, and, the write
having returned (whatever it returned), the exit status is 0. -/
theorem main_success_writes_markdown (w : World) (b : Bytes) (m : GoString)
    (hr : w.ReadAll = (b, none)) (hc : w.ConvertString (string b) = (m, none)) :
    written Fd.Stdout (run w main).trace = m ∧
    writes Fd.Stdout (run w main).trace = [m] ∧
    written Fd.Stderr (run w main).trace = [] ∧
    writes Fd.Stderr (run w main).trace = [] ∧
    (∀ n werr, w.Write Fd.Stdout m = WriteResult.returns n werr →
      (run w main).status = Status.exited 0) := by
  rw [run_main_success w b m hr hc]
  refine ⟨by simp [written, writes], by simp [writes], by simp [written, writes],
    by simp [writes], ?_⟩
  intro n werr hw
  exact afterWrite_returns _ 0 n werr hw

/-- C1 at `okWorld`: the input `<h1>Title</h1>` is read, the converter returns
`# Title` and a line feed, exactly that is written, and the exit status is 0. -/
theorem main_success_writes_markdown_witness :
    written Fd.Stdout (run okWorld main).trace = lit "# Title\n" ∧
    writes Fd.Stdout (run okWorld main).trace = [lit "# Title\n"] ∧
    written Fd.Stderr (run okWorld main).trace = [] ∧
    writes Fd.Stderr (run okWorld main).trace = [] ∧
    (run okWorld main).status = Status.exited 0 :=
  have h := main_success_writes_markdown okWorld (lit "<h1>Title</h1>") (lit "# Title\n")
    rfl rfl
  ⟨h.1, h.2.1, h.2.2.1, h.2.2.2.1, h.2.2.2.2 8 none rfl⟩

/-! ## The two failure paths -/

/-- C2: when the read fails with cause `e`, whatever bytes `b` were read before the
failure, standard error is exactly `Error reading stdin: `, the text of `e` and a line
feed, nothing is written to standard output, the converter is not called, and, the
write of the message having returned, the exit status is 1. -/
theorem main_read_failure (w : World) (b : Bytes) (e : GoError)
    (hr : w.ReadAll = (b, some e)) :
    (∀ n werr,
      w.Write Fd.Stderr (lit "Error reading stdin: " ++ e.Error ++ lit "\n")
        = WriteResult.returns n werr →
      (run w main).status = Status.exited 1) ∧
    written Fd.Stderr (run w main).trace
      = lit "Error reading stdin: " ++ e.Error ++ lit "\n" ∧
    written Fd.Stdout (run w main).trace = [] ∧
    writes Fd.Stdout (run w main).trace = [] ∧
    conversions (run w main).trace = [] := by
  rw [run_main_read_error w b e hr]
  refine ⟨?_, by simp [written, writes], by simp [written, writes], by simp [writes],
    by simp [conversions]⟩
  intro n werr hw
  exact afterWrite_returns _ 1 n werr hw

/-- C2 at `readErrWorld`: the read breaks after the seven bytes `<h1>Tit`. -/
theorem main_read_failure_witness :
    (run readErrWorld main).status = Status.exited 1 ∧
    written Fd.Stderr (run readErrWorld main).trace
      = lit "Error reading stdin: read /dev/stdin: input/output error\n" ∧
    written Fd.Stdout (run readErrWorld main).trace = [] ∧
    writes Fd.Stdout (run readErrWorld main).trace = [] ∧
    conversions (run readErrWorld main).trace = [] :=
  have h := main_read_failure readErrWorld (lit "<h1>Tit")
    ⟨lit "read /dev/stdin: input/output error"⟩ rfl
  ⟨h.1 57 none rfl, h.2⟩

/-- C3: when the read succeeds with `b` and the converter returns `(m, e)` with a
non-nil error `e`, standard error is exactly `Error converting HTML to Markdown: `, the
text of `e` and a line feed, nothing is written to standard output, whatever the
partial result `m` is, and, the write of the message having returned, the exit status
is 1. -/
theorem main_convert_failure (w : World) (b : Bytes) (m : GoString) (e : GoError)
    (hr : w.ReadAll = (b, none)) (hc : w.ConvertString (string b) = (m, some e)) :
    (∀ n werr,
      w.Write Fd.Stderr (lit "Error converting HTML to Markdown: " ++ e.Error ++ lit "\n")
        = WriteResult.returns n werr →
      (run w main).status = Status.exited 1) ∧
    written Fd.Stderr (run w main).trace
      = lit "Error converting HTML to Markdown: " ++ e.Error ++ lit "\n" ∧
    written Fd.Stdout (run w main).trace = [] ∧
    writes Fd.Stdout (run w main).trace = [] := by
  rw [run_main_convert_error w b m e hr hc]
  refine ⟨?_, by simp [written, writes], by simp [written, writes], by simp [writes]⟩
  intro n werr hw
  exact afterWrite_returns _ 1 n werr hw

/-- C3 at `convErrWorld`: the converter returns the partial text `# Ti` and an error. -/
theorem main_convert_failure_witness :
    (run convErrWorld main).status = Status.exited 1 ∧
    written Fd.Stderr (run convErrWorld main).trace
      = lit "Error converting HTML to Markdown: node limit exceeded\n" ∧
    written Fd.Stdout (run convErrWorld main).trace = [] ∧
    writes Fd.Stdout (run convErrWorld main).trace = [] :=
  have h := main_convert_failure convErrWorld (lit "<h1>Title</h1>") (lit "# Ti")
    ⟨lit "node limit exceeded"⟩ rfl rfl
  ⟨h.1 55 none rfl, h.2⟩

/-! ## Properties of every run -/

/-- C4: output is all-or-nothing.  In no run is standard output non-empty (neither what
`main` wrote to it nor what the stream took) while an error is reported (non-empty
standard error or exit status 1); and every write to standard output comes after a
read that returned no error and a conversion that returned no error. -/
theorem main_output_all_or_nothing (w : World) :
    ¬ (written Fd.Stdout (run w main).trace ≠ [] ∧
        (written Fd.Stderr (run w main).trace ≠ [] ∨
          (run w main).status = Status.exited 1)) ∧
    ¬ (delivered Fd.Stdout (run w main).trace ≠ [] ∧
        (written Fd.Stderr (run w main).trace ≠ [] ∨
          (run w main).status = Status.exited 1)) ∧
    (∀ pre p r post, (run w main).trace = pre ++ Event.write Fd.Stdout p r :: post →
      (∃ b, Event.read b none ∈ pre) ∧ (∃ i m, Event.convert i m none ∈ pre)) := by
  rcases world_cases w with ⟨b, e, hr⟩ | ⟨b, m, e, hr, hc⟩ | ⟨b, m, hr, hc⟩
  · rw [run_main_read_error w b e hr]
    refine ⟨by simp [written, writes], by simp [delivered], ?_⟩
    intro pre p r post h
    rcases pre with _ | ⟨x, _ | ⟨y, _ | ⟨z, pre⟩⟩⟩ <;> simp at h
  · rw [run_main_convert_error w b m e hr hc]
    refine ⟨by simp [written, writes], by simp [delivered], ?_⟩
    intro pre p r post h
    rcases pre with _ | ⟨x, _ | ⟨y, _ | ⟨z, _ | ⟨u, pre⟩⟩⟩⟩ <;> simp at h
  · rw [run_main_success w b m hr hc]
    have hst : afterWrite (w.Write Fd.Stdout m) 0 ≠ Status.exited 1 := by
      cases w.Write Fd.Stdout m <;> simp [afterWrite]
    refine ⟨by simp [written, writes, hst], by simp [written, writes, hst], ?_⟩
    intro pre p r post h
    rcases pre with _ | ⟨x, _ | ⟨y, _ | ⟨z, _ | ⟨u, pre⟩⟩⟩⟩ <;> simp at h
    obtain ⟨rfl, rfl, -⟩ := h
    exact ⟨⟨b, by simp⟩, ⟨string b, m, by simp⟩⟩

/-- C5, as the claim states it, fails at `brokenStderrWorld`: the converter reported
failure, and the process has neither exit status 1 nor exit status 0: the write of the
error message found standard error a broken pipe and the process was ended by
`SIGPIPE`. -/
theorem main_exit_status_not_always_0_or_1 :
    convertFails brokenStderrWorld ∧
    (run brokenStderrWorld main).status = Status.signaled 13 ∧
    ¬ ((run brokenStderrWorld main).status = Status.exited 0 ∨
        (run brokenStderrWorld main).status = Status.exited 1) ∧
    ¬ ((run brokenStderrWorld main).status = Status.exited 1 ↔
        readFails brokenStderrWorld ∨ convertFails brokenStderrWorld) := by
  have hc : convertFails brokenStderrWorld := by decide
  have hs : (run brokenStderrWorld main).status = Status.signaled 13 := rfl
  refine ⟨hc, hs, ?_, ?_⟩
  · rw [hs]; simp
  · rw [hs]; simp [hc]

/-- C5, amended: every run ends with exit status 0, with exit status 1, or by the signal
`SIGPIPE`, the last exactly when its write found the stream a broken pipe.  In a run
that is not ended by the signal the exit status is 1 exactly when the read failed or
the converter reported failure, and 0 exactly when both succeeded; in every run, exit
status 1 occurs only after such a failure and exit status 0 only after both
succeeded. -/
theorem main_exit_status (w : World) :
    ((run w main).status = Status.exited 0 ∨ (run w main).status = Status.exited 1 ∨
      (run w main).status = Status.signaled SIGPIPE) ∧
    ((run w main).status = Status.signaled SIGPIPE ↔ sigpiped (run w main).trace = true) ∧
    (sigpiped (run w main).trace = false →
      ((run w main).status = Status.exited 1 ↔ readFails w ∨ convertFails w)) ∧
    (sigpiped (run w main).trace = false →
      ((run w main).status = Status.exited 0 ↔
        w.ReadAll.2 = none ∧ (w.ConvertString (string w.ReadAll.1)).2 = none)) ∧
    ((run w main).status = Status.exited 1 → readFails w ∨ convertFails w) ∧
    ((run w main).status = Status.exited 0 →
      w.ReadAll.2 = none ∧ (w.ConvertString (string w.ReadAll.1)).2 = none) := by
  rcases world_cases w with ⟨b, e, hr⟩ | ⟨b, m, e, hr, hc⟩ | ⟨b, m, hr, hc⟩
  · rw [run_main_read_error w b e hr]
    cases w.Write Fd.Stderr (lit "Error reading stdin: " ++ e.Error ++ lit "\n") <;>
      simp [afterWrite, sigpiped, readFails, convertFails, hr]
  · rw [run_main_convert_error w b m e hr hc]
    cases w.Write Fd.Stderr (lit "Error converting HTML to Markdown: " ++ e.Error ++ lit "\n") <;>
      simp [afterWrite, sigpiped, readFails, convertFails, hr, hc]
  · rw [run_main_success w b m hr hc]
    cases w.Write Fd.Stdout m <;>
      simp [afterWrite, sigpiped, readFails, convertFails, hr, hc]

/-- C6, as the claim states it, fails at `twoLineWorld`: the converter fails with a
cause whose text is `a`, a line feed and `b`; the one message written to standard error
holds two line feeds, so it is two lines, not one. -/
theorem main_stderr_message_two_lines :
    writes Fd.Stderr (run twoLineWorld main).trace
      = [lit "Error converting HTML to Markdown: a\nb\n"] ∧
    (written Fd.Stderr (run twoLineWorld main).trace).count 10 = 2 ∧
    oneLine (written Fd.Stderr (run twoLineWorld main).trace) = false := by
  decide

/-- C6, amended: standard error is non-empty exactly on the two failure paths.  On a
failure path there is exactly one write to standard error: the read-error message when
the read failed, the conversion-error message when the converter failed, never both.
The message ends with a line feed and holds one line feed more than the text of the
cause, so it is one line exactly when the text of the cause holds no line feed.
Without a failure there is no write to standard error.  Nothing is retried: standard
input is read once and the converter is called at most once. -/
theorem main_stderr_iff_failure (w : World) :
    (written Fd.Stderr (run w main).trace ≠ [] ↔ readFails w ∨ convertFails w) ∧
    (readFails w ∨ convertFails w → (writes Fd.Stderr (run w main).trace).length = 1) ∧
    (¬ (readFails w ∨ convertFails w) → writes Fd.Stderr (run w main).trace = []) ∧
    (∀ e, w.ReadAll.2 = some e → writes Fd.Stderr (run w main).trace
      = [lit "Error reading stdin: " ++ e.Error ++ lit "\n"]) ∧
    (∀ e, w.ReadAll.2 = none → (w.ConvertString (string w.ReadAll.1)).2 = some e →
      writes Fd.Stderr (run w main).trace
        = [lit "Error converting HTML to Markdown: " ++ e.Error ++ lit "\n"]) ∧
    (∀ e, cause w = some e →
      (written Fd.Stderr (run w main).trace).count 10 = e.Error.count 10 + 1 ∧
      (written Fd.Stderr (run w main).trace).getLast? = some 10 ∧
      (oneLine (written Fd.Stderr (run w main).trace) = true ↔ 10 ∉ e.Error)) ∧
    reads (run w main).trace = 1 ∧
    (conversions (run w main).trace).length ≤ 1 := by
  have hcount1 : (lit "Error reading stdin: ").count 10 = 0 := by decide
  have hcount2 : (lit "Error converting HTML to Markdown: ").count 10 = 0 := by decide
  have hnl : lit "\n" = [10] := by decide
  rcases world_cases w with ⟨b, e, hr⟩ | ⟨b, m, e, hr, hc⟩ | ⟨b, m, hr, hc⟩
  · rw [run_main_read_error w b e hr]
    simp [written, writes, reads, conversions, readFails, convertFails, cause, hr, hnl,
      hcount1, oneLine, List.count_eq_zero]
  · rw [run_main_convert_error w b m e hr hc]
    simp [written, writes, reads, conversions, readFails, convertFails, cause, hr, hc, hnl,
      hcount2, oneLine, List.count_eq_zero]
  · rw [run_main_success w b m hr hc]
    simp [written, writes, reads, conversions, readFails, convertFails, cause, hr, hc]

/-- C7: when the read succeeds with `b`, the converter is called exactly once, after
the read, and its argument is `string(b)`, which is the whole of `b`, byte for byte. -/
theorem main_converts_whole_input (w : World) (b : Bytes) (hr : w.ReadAll = (b, none)) :
    conversions (run w main).trace = [string b] ∧
    string b = b ∧
    reads (run w main).trace = 1 ∧
    ∃ rest, (run w main).trace
      = Event.read b none
        :: Event.convert b (w.ConvertString b).1 (w.ConvertString b).2 :: rest ∧
      conversions rest = [] := by
  rcases hc : w.ConvertString (string b) with ⟨m, _ | e⟩
  · rw [run_main_success w b m hr hc]
    have hc' : w.ConvertString b = (m, none) := hc
    simp [conversions, reads, string, hc']
  · rw [run_main_convert_error w b m e hr hc]
    have hc' : w.ConvertString b = (m, some e) := hc
    simp [conversions, reads, string, hc']

/-- C7 at `okWorld`: the converter is called once, on the fourteen bytes of
`<h1>Title</h1>`. -/
theorem main_converts_whole_input_witness :
    conversions (run okWorld main).trace = [string (lit "<h1>Title</h1>")] ∧
    string (lit "<h1>Title</h1>") = lit "<h1>Title</h1>" ∧
    reads (run okWorld main).trace = 1 ∧
    ∃ rest, (run okWorld main).trace
      = Event.read (lit "<h1>Title</h1>") none
        :: Event.convert (lit "<h1>Title</h1>")
            (okWorld.ConvertString (lit "<h1>Title</h1>")).1
            (okWorld.ConvertString (lit "<h1>Title</h1>")).2 :: rest ∧
      conversions rest = [] :=
  main_converts_whole_input okWorld (lit "<h1>Title</h1>") rfl

/-! ## The write to standard output -/

/-- C10, as the claim states it, fails at `brokenStdoutWorld`: the read and the
conversion succeed, the write of the Markdown finds standard output a broken pipe, and
the process does not exit with status 0: it is ended by `SIGPIPE`.  Nothing is written
to standard error. -/
theorem main_broken_stdout_not_status_0 :
    brokenStdoutWorld.ReadAll = (lit "<h1>Title</h1>", none) ∧
    brokenStdoutWorld.ConvertString (string (lit "<h1>Title</h1>")) = (lit "# Title\n", none) ∧
    (run brokenStdoutWorld main).status = Status.signaled 13 ∧
    (run brokenStdoutWorld main).status ≠ Status.exited 0 ∧
    writes Fd.Stderr (run brokenStdoutWorld main).trace = [] := by
  decide

/-- C10, amended: the result the write to standard output returns is dropped.  When the
read and the conversion succeed, `main` writes nothing to standard error, whatever the
write of the Markdown does.  When that write returns, with whatever count `n` and error
`werr` (all, some or none of the bytes taken), the run is the read, the conversion and
that one write, nothing more, and the exit status is 0: `main` has no write-failure
path.  When that write finds a broken pipe, the process is ended by `SIGPIPE` inside
the write. -/
theorem main_ignores_write_result (w : World) (b : Bytes) (m : GoString)
    (hr : w.ReadAll = (b, none)) (hc : w.ConvertString (string b) = (m, none)) :
    writes Fd.Stderr (run w main).trace = [] ∧
    written Fd.Stderr (run w main).trace = [] ∧
    (∀ n werr, w.Write Fd.Stdout m = WriteResult.returns n werr →
      (run w main).trace
        = [Event.read b none, Event.convert (string b) m none,
           Event.write Fd.Stdout m (WriteResult.returns n werr)] ∧
      (run w main).status = Status.exited 0 ∧
      delivered Fd.Stdout (run w main).trace = m.take n) ∧
    (∀ n, w.Write Fd.Stdout m = WriteResult.sigpipe n →
      (run w main).status = Status.signaled SIGPIPE ∧
      delivered Fd.Stdout (run w main).trace = m.take n) := by
  rw [run_main_success w b m hr hc]
  refine ⟨by simp [writes], by simp [written, writes], ?_, ?_⟩
  · intro n werr hw
    simp [hw, afterWrite, delivered, WriteResult.count]
  · intro n hw
    simp [hw, afterWrite, delivered, WriteResult.count]

/-- C10, amended, at `shortWriteWorld`: standard output takes three of the eight bytes
and returns an error; the exit status is 0 all the same and standard error stays
empty. -/
theorem main_ignores_write_result_witness :
    writes Fd.Stderr (run shortWriteWorld main).trace = [] ∧
    (run shortWriteWorld main).trace
      = [Event.read (lit "<h1>Title</h1>") none,
         Event.convert (string (lit "<h1>Title</h1>")) (lit "# Title\n") none,
         Event.write Fd.Stdout (lit "# Title\n")
           (WriteResult.returns 3
             (some ⟨lit "write /dev/stdout: no space left on device"⟩))] ∧
    (run shortWriteWorld main).status = Status.exited 0 ∧
    delivered Fd.Stdout (run shortWriteWorld main).trace = (lit "# Title\n").take 3 :=
  have h := main_ignores_write_result shortWriteWorld (lit "<h1>Title</h1>")
    (lit "# Title\n") rfl rfl
  ⟨h.1, h.2.2.1 3 (some ⟨lit "write /dev/stdout: no space left on device"⟩) rfl⟩

/-! ## What `main` leaves to the converter -/

/-- Once the input `b` is read, standard output and the exit status are those the
converter decides on `string(b)`: the converter's text and no exit status 1 when it
returns no error, no output and no exit status 0 when it returns one.  `main` adds no
knowledge of its own about any particular input, the empty one and `<h1>Title</h1>`
included. -/
theorem main_outcome_decided_by_converter (w : World) (b : Bytes)
    (hr : w.ReadAll = (b, none)) :
    ((w.ConvertString (string b)).2 = none →
      written Fd.Stdout (run w main).trace = (w.ConvertString (string b)).1 ∧
      (run w main).status ≠ Status.exited 1) ∧
    ((w.ConvertString (string b)).2 ≠ none →
      written Fd.Stdout (run w main).trace = [] ∧
      (run w main).status ≠ Status.exited 0) := by
  rcases hc : w.ConvertString (string b) with ⟨m, _ | e⟩
  · rw [run_main_success w b m hr hc]
    cases w.Write Fd.Stdout m <;> simp [written, writes, afterWrite]
  · rw [run_main_convert_error w b m e hr hc]
    cases w.Write Fd.Stderr (lit "Error converting HTML to Markdown: " ++ e.Error ++ lit "\n") <;>
      simp [written, writes, afterWrite]
